import Mathlib

/-!
Shallow embedding of the error taxonomy (src/error.rs) and the v5 handshake
outcome types (src/v5/connect.rs) of an MQTT protocol engine, with theorems
settling the stated properties of the conversions, the handshake outcome
constructors and the decode-error equality.
-/

/-- Model of the payload of a std str Utf8Error: the byte position up to which
the input was valid and the optional length of the invalid sequence. -/
structure str.Utf8Error where
  valid_up_to : Nat
  error_len : Option Nat
deriving DecidableEq, Repr

/-- Model of a std io Error, reduced to an opaque code; the engine only
forwards these values, never inspects them. -/
structure io.Error where
  code : Nat
deriving DecidableEq, Repr

/-- Decode errors, from src/error.rs enum DecodeError. -/
inductive DecodeError where
  | InvalidProtocol
  | InvalidLength
  | MalformedPacket
  | UnsupportedProtocolLevel
  | ConnectReservedFlagSet
  | ConnAckReservedFlagSet
  | InvalidClientId
  | UnsupportedPacketType
  | PacketIdRequired
  | MaxSizeExceeded
  | Utf8Error (e : str.Utf8Error)
deriving DecidableEq, Repr

/-- Encode errors, from src/error.rs enum EncodeError. -/
inductive EncodeError where
  | InvalidLength
  | MalformedPacket
  | PacketIdRequired
  | UnsupportedVersion
deriving DecidableEq, Repr

/-- Protocol level errors, from src/error.rs enum ProtocolError. -/
inductive ProtocolError where
  | PublishReadyError
  | Decode (e : DecodeError)
  | Encode (e : EncodeError)
  | Unexpected (packet_type : Nat) (reason : String)
  | PacketIdRequired
  | DuplicatedPacketId
  | PacketIdMismatch
  | MaxTopicAlias
  | UnknownTopicAlias
  | KeepAliveTimeout
  | HandshakeTimeout
  | Disconnected
  | Io (e : io.Error)
deriving DecidableEq, Repr

/-- Errors which can occur when attempting to handle an mqtt connection, from
src/error.rs enum MqttError, generic over the service error type E. -/
inductive MqttError (E : Type) where
  | Service (e : E)
  | Protocol (e : ProtocolError)
  | PublishReadyError
  | Decode (e : DecodeError)
  | Encode (e : EncodeError)
  | Unexpected (packet_type : Nat) (reason : String)
  | PacketIdRequired
  | DuplicatedPacketId
  | PacketIdMismatch
  | MaxTopicAlias
  | UnknownTopicAlias
  | KeepAliveTimeout
  | HandshakeTimeout
  | Disconnected
  | Io (e : io.Error)
deriving DecidableEq, Repr

/-- The Either type of the either crate used by src/error.rs. -/
inductive Either (L R : Type) where
  | Left (l : L)
  | Right (r : R)
deriving DecidableEq, Repr

/-- Dispatcher errors of the framed module (the framed module itself is not
under src/); its four constructors and their payload types are exactly those
matched by the exhaustive From impls in src/error.rs, and both the v3 and the
v5 codec instantiate the encoder and decoder error types at the crate-level
EncodeError and DecodeError. -/
inductive DispatcherError where
  | KeepAlive
  | Encoder (e : EncodeError)
  | Decoder (e : DecodeError)
  | Io (e : io.Error)
deriving DecidableEq, Repr

/-- From Either E ProtocolError for MqttError E, src/error.rs. -/
def MqttError.from_either {E : Type} : Either E ProtocolError → MqttError E
  | Either.Left e => MqttError.Service e
  | Either.Right e => MqttError.Protocol e

/-- From DecodeError for MqttError E, src/error.rs. -/
def MqttError.from_decode_error {E : Type} (err : DecodeError) : MqttError E :=
  MqttError.Decode err

/-- From Either DecodeError io Error for MqttError E, src/error.rs. -/
def MqttError.from_decode_or_io {E : Type} : Either DecodeError io.Error → MqttError E
  | Either.Left err => MqttError.Decode err
  | Either.Right err => MqttError.Io err

/-- From Either EncodeError io Error for MqttError E, src/error.rs. -/
def MqttError.from_encode_or_io {E : Type} : Either EncodeError io.Error → MqttError E
  | Either.Left err => MqttError.Encode err
  | Either.Right err => MqttError.Io err

/-- From EncodeError for MqttError E, src/error.rs. -/
def MqttError.from_encode_error {E : Type} (err : EncodeError) : MqttError E :=
  MqttError.Encode err

/-- From io Error for MqttError E, src/error.rs. -/
def MqttError.from_io_error {E : Type} (err : io.Error) : MqttError E :=
  MqttError.Io err

/-- From DispatcherError of the v3 codec for MqttError E, src/error.rs. -/
def MqttError.from_dispatcher_v3 {E : Type} : DispatcherError → MqttError E
  | DispatcherError.KeepAlive => MqttError.KeepAliveTimeout
  | DispatcherError.Encoder err => MqttError.Encode err
  | DispatcherError.Decoder err => MqttError.Decode err
  | DispatcherError.Io err => MqttError.Io err

/-- From DispatcherError of the v5 codec for MqttError E, src/error.rs. -/
def MqttError.from_dispatcher_v5 {E : Type} : DispatcherError → MqttError E
  | DispatcherError.KeepAlive => MqttError.KeepAliveTimeout
  | DispatcherError.Encoder err => MqttError.Encode err
  | DispatcherError.Decoder err => MqttError.Decode err
  | DispatcherError.Io err => MqttError.Io err

/-- From DispatcherError of the v3 codec for ProtocolError, src/error.rs. -/
def ProtocolError.from_dispatcher_v3 : DispatcherError → ProtocolError
  | DispatcherError.KeepAlive => ProtocolError.KeepAliveTimeout
  | DispatcherError.Encoder err => ProtocolError.Encode err
  | DispatcherError.Decoder err => ProtocolError.Decode err
  | DispatcherError.Io err => ProtocolError.Io err

/-- From DispatcherError of the v5 codec for ProtocolError, src/error.rs. -/
def ProtocolError.from_dispatcher_v5 : DispatcherError → ProtocolError
  | DispatcherError.KeepAlive => ProtocolError.KeepAliveTimeout
  | DispatcherError.Encoder err => ProtocolError.Encode err
  | DispatcherError.Decoder err => ProtocolError.Decode err
  | DispatcherError.Io err => ProtocolError.Io err

/-- The PartialEq impl for DecodeError of src/error.rs, arm for arm and in
the same order, with the Utf8Error arm returning false against anything. -/
def DecodeError.eq : DecodeError → DecodeError → Bool
  | DecodeError.InvalidProtocol, DecodeError.InvalidProtocol => true
  | DecodeError.InvalidLength, DecodeError.InvalidLength => true
  | DecodeError.UnsupportedProtocolLevel, DecodeError.UnsupportedProtocolLevel => true
  | DecodeError.ConnectReservedFlagSet, DecodeError.ConnectReservedFlagSet => true
  | DecodeError.ConnAckReservedFlagSet, DecodeError.ConnAckReservedFlagSet => true
  | DecodeError.InvalidClientId, DecodeError.InvalidClientId => true
  | DecodeError.UnsupportedPacketType, DecodeError.UnsupportedPacketType => true
  | DecodeError.PacketIdRequired, DecodeError.PacketIdRequired => true
  | DecodeError.MaxSizeExceeded, DecodeError.MaxSizeExceeded => true
  | DecodeError.MalformedPacket, DecodeError.MalformedPacket => true
  | DecodeError.Utf8Error _, _ => false
  | _, _ => false

/-- Whether a DecodeError is the Utf8Error variant. -/
def DecodeError.isUtf8 : DecodeError → Bool
  | DecodeError.Utf8Error _ => true
  | _ => false

/-- Duration in whole seconds, the only granularity connect.rs uses
(Duration from_secs). -/
structure Duration where
  secs : Nat
deriving DecidableEq, Repr

/-- Duration from_secs. -/
def Duration.from_secs (n : Nat) : Duration :=
  { secs := n }

/-- Modelled from the spec: the codec module is not under src/; its Connect
packet carries the client requested parameters and is opaque to the claims
settled here, so it is reduced to an opaque payload. -/
structure codec.Connect where
  raw : Nat
deriving DecidableEq, Repr

/-- Modelled from the spec: connect acknowledgement reason codes of the codec
module (not under src/); a success code and a sample of failure codes. -/
inductive codec.ConnectAckReason where
  | Success
  | UnspecifiedError
  | MalformedPacket
  | ProtocolError
  | NotAuthorized
  | BadUserNameOrPassword
  | ServerUnavailable
deriving DecidableEq, Repr

/-- Modelled from the spec: the codec ConnectAck packet (the codec module is
not under src/). It carries a reason code, the negotiated topic-alias maximum,
the session-expiry-interval property, and the optional keep-alive override
field of the outbound packet; session expiry interval and server keep-alive
are distinct properties of the acknowledgement packet. -/
structure codec.ConnectAck where
  session_present : Bool
  reason_code : codec.ConnectAckReason
  session_expiry_interval_secs : Option Nat
  server_keepalive_sec : Option Nat
  topic_alias_max : Nat
deriving DecidableEq, Repr

/-- Modelled from the spec: ConnectAck default, all optional properties absent. -/
def codec.ConnectAck.default : codec.ConnectAck :=
  { session_present := false
    reason_code := codec.ConnectAckReason.Success
    session_expiry_interval_secs := none
    server_keepalive_sec := none
    topic_alias_max := 0 }

/-- Modelled from the spec: the server sink endpoint (sink module not under
src/), opaque to the claims and compared only for being threaded unchanged. -/
structure MqttSink where
  id : Nat
deriving DecidableEq, Repr

/-- Modelled from the spec: the handshake result (handshake module not under
src/) owns the transport framing object and, through the transport interface,
the live keep-alive timer, which set_keepalive_timeout re-arms. -/
structure HandshakeResult (I : Type) where
  framed : I
  keepalive_timeout : Duration
deriving DecidableEq, Repr

/-- set_keepalive_timeout re-arms the live keep-alive timer of the transport. -/
def HandshakeResult.set_keepalive_timeout {I : Type} (h : HandshakeResult I)
    (d : Duration) : HandshakeResult I :=
  { h with keepalive_timeout := d }

/-- Connect message, from src/v5/connect.rs struct Connect. -/
structure Connect (I : Type) where
  connect : codec.Connect
  sink : MqttSink
  inflight : Nat
  max_topic_alias : Nat
  io : HandshakeResult I
deriving DecidableEq, Repr

/-- Ack connect message, from src/v5/connect.rs struct ConnectAck. -/
structure ConnectAck (I S : Type) where
  io : HandshakeResult I
  session : Option S
  inflight : Nat
  sink : MqttSink
  packet : codec.ConnectAck
deriving DecidableEq, Repr

/-- Connect new, from src/v5/connect.rs. -/
def Connect.new {I : Type} (connect : codec.Connect) (io : HandshakeResult I)
    (sink : MqttSink) (max_topic_alias : Nat) (inflight : Nat) : Connect I :=
  { connect := connect, io := io, sink := sink, inflight := inflight,
    max_topic_alias := max_topic_alias }

/-- Connect ack, from src/v5/connect.rs: builds a default ConnectAck packet,
sets its reason code to Success and its topic-alias maximum, and moves io,
sink and inflight into the ConnectAck with the session data present. -/
def Connect.ack {I S : Type} (c : Connect I) (st : S) : ConnectAck I S :=
  let packet := { codec.ConnectAck.default with
    reason_code := codec.ConnectAckReason.Success
    topic_alias_max := c.max_topic_alias }
  { io := c.io
    sink := c.sink
    inflight := c.inflight
    session := some st
    packet := packet }

/-- Connect failed, from src/v5/connect.rs: builds a default ConnectAck packet,
sets its reason code to the supplied reason and its topic-alias maximum, and
moves io, sink and inflight into the ConnectAck with no session data. -/
def Connect.failed {I S : Type} (c : Connect I) (reason : codec.ConnectAckReason) :
    ConnectAck I S :=
  let packet := { codec.ConnectAck.default with
    reason_code := reason
    topic_alias_max := c.max_topic_alias }
  { io := c.io
    sink := c.sink
    session := none
    inflight := c.inflight
    packet := packet }

/-- ConnectAck keep_alive, from src/v5/connect.rs: writes the timeout into the
session_expiry_interval_secs field of the packet and re-arms the live
keep-alive timer of the transport to the same number of seconds. -/
def ConnectAck.keep_alive {I S : Type} (a : ConnectAck I S) (timeout : Nat) :
    ConnectAck I S :=
  { a with
    packet := { a.packet with session_expiry_interval_secs := some timeout }
    io := a.io.set_keepalive_timeout (Duration.from_secs timeout) }

/-- A concrete v5 handshake Connect value used as the failing input of C1. -/
def sampleConnect : Connect Nat :=
  Connect.new { raw := 0 } { framed := 7, keepalive_timeout := Duration.from_secs 30 }
    { id := 1 } 8 15

/-- C1: the claim says keep_alive t also sets the keep-alive field of the
outbound ConnectAck packet to t. At the concrete handshake sampleConnect,
(ack 0).keep_alive 45 does re-arm the live timer to 45 seconds, but it writes
45 into the session-expiry-interval field of the packet and leaves the
keep-alive field of the packet absent, so the packet keep-alive field and the
live timer disagree. -/
theorem keep_alive_sets_session_expiry_not_packet_keepalive :
    ((sampleConnect.ack 0).keep_alive 45).io.keepalive_timeout = Duration.from_secs 45 ∧
    ((sampleConnect.ack 0).keep_alive 45).packet.session_expiry_interval_secs = some 45 ∧
    ((sampleConnect.ack 0).keep_alive 45).packet.server_keepalive_sec = none := by
  refine ⟨rfl, rfl, rfl⟩

/-- C2: for every Connect, both ack and failed produce a ConnectAck whose
packet topic-alias maximum is the negotiated max_topic_alias of the Connect
and whose in-flight capacity is the inflight of the Connect. -/
theorem ack_failed_populate_alias_max_and_inflight {I S : Type} (c : Connect I)
    (st : S) (r : codec.ConnectAckReason) :
    (c.ack st).packet.topic_alias_max = c.max_topic_alias ∧
    (c.ack st).inflight = c.inflight ∧
    (c.failed r : ConnectAck I S).packet.topic_alias_max = c.max_topic_alias ∧
    (c.failed r : ConnectAck I S).inflight = c.inflight :=
  ⟨rfl, rfl, rfl, rfl⟩

/-- C3 counterexample: converting the decode error InvalidProtocol into
MqttError does not yield the Decode kind nested under the Protocol wrapper. -/
theorem decode_conversion_not_protocol_nested :
    (MqttError.from_decode_error DecodeError.InvalidProtocol : MqttError Unit) ≠
      MqttError.Protocol (ProtocolError.Decode DecodeError.InvalidProtocol) := by
  decide

/-- C3 amended: converting a DecodeError (respectively an EncodeError) into
MqttError yields the dedicated top-level Decode (respectively Encode) variant
of MqttError, not nested under the Protocol wrapper, and never the Io
variant. -/
theorem decode_encode_conversions_dedicated_variants {E : Type} (d : DecodeError)
    (e : EncodeError) :
    (MqttError.from_decode_error d : MqttError E) = MqttError.Decode d ∧
    (MqttError.from_encode_error e : MqttError E) = MqttError.Encode e ∧
    (∀ p : ProtocolError, (MqttError.from_decode_error d : MqttError E) ≠ MqttError.Protocol p) ∧
    (∀ p : ProtocolError, (MqttError.from_encode_error e : MqttError E) ≠ MqttError.Protocol p) ∧
    (∀ i : io.Error, (MqttError.from_decode_error d : MqttError E) ≠ MqttError.Io i) ∧
    (∀ i : io.Error, (MqttError.from_encode_error e : MqttError E) ≠ MqttError.Io i) := by
  refine ⟨rfl, rfl, ?_, ?_, ?_, ?_⟩ <;> intro x h <;>
    simp [MqttError.from_decode_error, MqttError.from_encode_error] at h

/-- C4: for either codec version, the conversion of a DispatcherError into
MqttError maps KeepAlive to KeepAliveTimeout, Encoder e to Encode e, Decoder e
to Decode e and Io e to Io e, forwarding the payload unchanged. -/
theorem dispatcher_error_to_mqtt_error_mapping {E : Type} (e : EncodeError)
    (d : DecodeError) (i : io.Error) :
    (MqttError.from_dispatcher_v3 DispatcherError.KeepAlive : MqttError E) =
      MqttError.KeepAliveTimeout ∧
    (MqttError.from_dispatcher_v3 (DispatcherError.Encoder e) : MqttError E) =
      MqttError.Encode e ∧
    (MqttError.from_dispatcher_v3 (DispatcherError.Decoder d) : MqttError E) =
      MqttError.Decode d ∧
    (MqttError.from_dispatcher_v3 ( DispatcherError.Io i) : MqttError E) =
      MqttError.Io i ∧
    (MqttError.from_dispatcher_v5 DispatcherError.KeepAlive : MqttError E) =
      MqttError.KeepAliveTimeout ∧
    (MqttError.from_dispatcher_v5 (DispatcherError.Encoder e) : MqttError E) =
      MqttError.Encode e ∧
    (MqttError.from_dispatcher_v5 (DispatcherError.Decoder d) : MqttError E) =
      MqttError.Decode d ∧
    (MqttError.from_dispatcher_v5 ( DispatcherError.Io i) : MqttError E) =
      MqttError.Io i :=
  ⟨rfl, rfl, rfl, rfl, rfl, rfl, rfl, rfl⟩

/-- The evident variant-for-variant correspondence of the claim C5, stated
from the spec words for the refinement comparison: each ProtocolError variant
is sent to the same-named variant of MqttError. -/
def ProtocolError.toMqtt {E : Type} : ProtocolError → MqttError E
  | ProtocolError.PublishReadyError => MqttError.PublishReadyError
  | ProtocolError.Decode e => MqttError.Decode e
  | ProtocolError.Encode e => MqttError.Encode e
  | ProtocolError.Unexpected b s => MqttError.Unexpected b s
  | ProtocolError.PacketIdRequired => MqttError.PacketIdRequired
  | ProtocolError.DuplicatedPacketId => MqttError.DuplicatedPacketId
  | ProtocolError.PacketIdMismatch => MqttError.PacketIdMismatch
  | ProtocolError.MaxTopicAlias => MqttError.MaxTopicAlias
  | ProtocolError.UnknownTopicAlias => MqttError.UnknownTopicAlias
  | ProtocolError.KeepAliveTimeout => MqttError.KeepAliveTimeout
  | ProtocolError.HandshakeTimeout => MqttError.HandshakeTimeout
  | ProtocolError.Disconnected => MqttError.Disconnected
  | ProtocolError.Io e => MqttError.Io e

/-- C5: for either codec version and every DispatcherError, the conversion
into the generic MqttError equals the conversion into the non-generic
ProtocolError followed by the variant-for-variant correspondence into
MqttError, so the two conversions agree constructor for constructor with equal
payload. -/
theorem dispatcher_conversions_agree_up_to_embedding {E : Type}
    (d : DispatcherError) :
    (MqttError.from_dispatcher_v3 d : MqttError E) =
      ProtocolError.toMqtt (ProtocolError.from_dispatcher_v3 d) ∧
    (MqttError.from_dispatcher_v5 d : MqttError E) =
      ProtocolError.toMqtt (ProtocolError.from_dispatcher_v5 d) := by
  cases d <;> exact ⟨rfl, rfl⟩

/-- C6: converting Either Left of a service error into MqttError yields the
Service variant with the error forwarded unchanged, and converting Either
Right of a protocol error yields the Protocol variant. -/
theorem either_conversion_service_protocol {E : Type} (e : E) (p : ProtocolError) :
    MqttError.from_either (Either.Left e : Either E ProtocolError) =
      MqttError.Service e ∧
    MqttError.from_either (Either.Right p : Either E ProtocolError) =
      MqttError.Protocol p :=
  ⟨rfl, rfl⟩

/-- C7: the PartialEq of DecodeError returns true exactly when the two values
are structurally equal and the left one is not a Utf8Error; in particular a
Utf8Error compares unequal to everything, itself included, and two values of
the same non-Utf8 variant compare equal while different variants compare
unequal. -/
theorem decode_error_eq_characterization (a b : DecodeError) :
    DecodeError.eq a b = true ↔ (a = b ∧ DecodeError.isUtf8 a = false) := by
  cases a <;> cases b <;> simp [DecodeError.eq, DecodeError.isUtf8]

/-- C8: failed builds a ConnectAck whose packet reason code is exactly the
supplied reason. -/
theorem failed_sets_reason_code {I S : Type} (c : Connect I)
    (r : codec.ConnectAckReason) :
    (c.failed r : ConnectAck I S).packet.reason_code = r :=
  rfl

/-- C9: both ack and failed thread the handshake transport object io and the
sink endpoint into the resulting ConnectAck unchanged. -/
theorem ack_failed_thread_io_and_sink {I S : Type} (c : Connect I) (st : S)
    (r : codec.ConnectAckReason) :
    (c.ack st).io = c.io ∧ (c.ack st).sink = c.sink ∧
    (c.failed r : ConnectAck I S).io = c.io ∧
    (c.failed r : ConnectAck I S).sink = c.sink :=
  ⟨rfl, rfl, rfl, rfl⟩

/-- C10: ack produces a ConnectAck carrying exactly the supplied session data
and the Success reason code, while failed produces one with no session data,
so session data is present exactly when the outcome was ack. -/
theorem session_present_iff_ack {I S : Type} (c : Connect I) (st : S)
    (r : codec.ConnectAckReason) :
    (c.ack st).session = some st ∧
    (c.ack st).packet.reason_code = codec.ConnectAckReason.Success ∧
    (c.failed r : ConnectAck I S).session = none :=
  ⟨rfl, rfl, rfl⟩
